import Mathlib

/-!
Verification of `scripts/generate_esp.py` (charge_optimizer repository).

The script is a thin CLI wrapper: it parses an XYZ geometry file, delegates a
DFT/ESP calculation to the external psi4 engine, and renames the engine's
output file `ESP.cube` to `<input_basename>_esp.cube`.

Shallow embedding conventions:
* A file's contents are the list of lines returned by `readlines`, one string
  per line (line terminators omitted; the script strips every line it uses,
  so this loses nothing observable).
* The filesystem is an association list from path to contents.
* The external engine (import of psi4, `psi4.geometry`, `psi4.set_options`,
  `psi4.energy`, `psi4.cubeprop`) is a model parameter (`Env`): the import
  either succeeds or raises ImportError; the engine calls are total and their
  only filesystem effect is that `cubeprop` creates `ESP.cube` (overwriting
  any file of that name) exactly when `Env.engineProducesCube` is true.  The
  formatted SCF energy printed by the script is the opaque `Env.scfEnergy`.
* A run records the final filesystem, everything printed to standard output
  (one list entry per `print` call, as the exact string printed), an ordered
  trace of I/O events, the termination outcome, and the geometry / molecule
  strings handed to the engine (when execution got that far).
-/

/-- Filesystem model: association list from path to file contents (lines). -/
abbrev FS := List (String × List String)

namespace FS

/-- Look up the contents of a path (`none` = file does not exist). -/
def lookupFile : FS → String → Option (List String)
  | [], _ => none
  | (q, c) :: rest, p => if p = q then some c else lookupFile rest p

/-- Create or overwrite the file at path `p` with contents `c`. -/
def setFile : FS → String → List String → FS
  | [], p, c => [(p, c)]
  | (q, d) :: rest, p, c =>
      if p = q then (p, c) :: rest else (q, d) :: setFile rest p c

/-- Delete the file at path `p` (no-op when absent). -/
def removeFile : FS → String → FS
  | [], _ => []
  | (q, d) :: rest, p =>
      if p = q then removeFile rest p else (q, d) :: removeFile rest p

/-- Models `os.rename(src, dst)`: moves the file at `src` to `dst`, silently
replacing any existing file at `dst` (POSIX semantics).  The script only calls
it after checking `src` exists; the `none` branch is unreachable there. -/
def rename (fs : FS) (src dst : String) : FS :=
  match lookupFile fs src with
  | none => fs
  | some c => setFile (removeFile fs src) dst c

end FS

/-- Models Python `str.strip()` with no argument: removes leading and trailing
whitespace.  (`Char.isWhitespace` covers the ASCII whitespace characters;
Python's set is slightly larger but agrees on all inputs considered here.) -/
def pyStrip (s : String) : String :=
  ⟨((s.data.dropWhile Char.isWhitespace).reverse.dropWhile
      Char.isWhitespace).reverse⟩

/-- Numeric value of a list of decimal digit characters. -/
def digitsToNat (cs : List Char) : Nat :=
  cs.foldl (fun a c => a * 10 + (c.toNat - 48)) 0

/-- Models Python `int(s)` on a string: strips surrounding whitespace, then
accepts an optional sign followed by one or more decimal digits; `none` models
the `ValueError` raised on anything else.  (Underscore digit separators and
non-ASCII digits, which CPython also accepts, are not modelled; no claim
depends on them.) -/
def pyInt (s : String) : Option Int :=
  match (pyStrip s).data with
  | [] => none
  | '+' :: cs =>
      if cs ≠ [] ∧ cs.all Char.isDigit then some (digitsToNat cs) else none
  | '-' :: cs =>
      if cs ≠ [] ∧ cs.all Char.isDigit then some (-(digitsToNat cs : Int)) else none
  | cs =>
      if cs.all Char.isDigit then some (digitsToNat cs) else none

/-- Index of the last occurrence of `c` in `cs`, or `none` (Python `rfind`
returning -1). -/
def rfindIdx (c : Char) : List Char → Option Nat
  | [] => none
  | a :: rest =>
      match rfindIdx c rest with
      | some r => some (r + 1)
      | none => if a = c then some 0 else none

/-- Models `os.path.splitext(p)[0]` on POSIX (`sep = '/'`, no altsep,
`extsep = '.'`): the path up to the last dot of the final component, except
that a final component consisting only of leading dots before that dot is not
split (e.g. `.bashrc`). -/
def splitextRoot (p : String) : String :=
  let cs := p.data
  match rfindIdx '.' cs with
  | none => p
  | some d =>
      let start :=
        match rfindIdx '/' cs with
        | none => some 0
        | some s => if s < d then some (s + 1) else none
      match start with
      | none => p
      | some st =>
          if ((cs.drop st).take (d - st)).all (fun x => x = '.') then p
          else ⟨cs.take d⟩

/-- Geometry-block loop of the script (`for i in range(2, 2 + n_atoms):
geom_lines.append(lines[i].strip())`), started at index `i` with `k`
iterations remaining: `none` models the `IndexError` raised when an index is
out of range. -/
def buildGeomLines (lines : List String) : Nat → Nat → Option (List String)
  | _, 0 => some []
  | i, k + 1 =>
      match lines.get? i with
      | none => none
      | some l => (buildGeomLines lines (i + 1) k).map (fun g => pyStrip l :: g)

/-- Molecule specification f-string handed to `psi4.geometry`
(`f"""\n    0 1\n    {geom_str}\n    """`). -/
def mkMolSpec (geom_str : String) : String :=
  "\n    0 1\n    " ++ geom_str ++ "\n    "

/-- Model parameters for the external psi4 engine. -/
structure Env where
  /-- Whether `import psi4` succeeds. -/
  psi4Available : Bool
  /-- Whether `psi4.cubeprop` leaves `ESP.cube` in the working directory. -/
  engineProducesCube : Bool
  /-- Contents of the `ESP.cube` the engine writes (opaque to the script). -/
  cubeContent : List String
  /-- The engine's SCF energy, already formatted to 6 decimal places. -/
  scfEnergy : String
deriving DecidableEq, Repr

/-- Termination outcome of a run: `sys.exit(code)`, an uncaught Python
exception (named by its class), or falling off the end of the script. -/
inductive Outcome where
  | exited (code : Nat)
  | raised (exc : String)
  | finished
deriving DecidableEq, Repr

/-- Exit status of the process for each outcome: `sys.exit(c)` exits with
`c`, CPython terminates with status 1 on an uncaught exception, and falling
off the end exits with 0. -/
def exitCodeOf : Outcome → Nat
  | .exited c => c
  | .raised _ => 1
  | .finished => 0

/-- Observable I/O events of a run, in program order. -/
inductive Event where
  /-- The `import psi4` attempt (line 24). -/
  | importPsi4
  /-- Opening a file for reading (`open(xyz_file, 'r')`, line 31). -/
  | openRead (path : String)
  /-- The blocking `psi4.energy` call (line 64). -/
  | energyCalc
  /-- The `psi4.cubeprop` call (line 69). -/
  | cubeprop
  /-- An `os.path.exists` check (lines 76 and 92). -/
  | existsCheck (path : String)
  /-- An `os.rename` call (line 77). -/
  | rename (src dst : String)
deriving DecidableEq, Repr

/-- Result of one run of the script. -/
structure RunResult where
  /-- Final filesystem. -/
  fs : FS
  /-- Strings printed to standard output, one entry per `print` call. -/
  stdout : List String
  /-- Ordered trace of I/O events. -/
  events : List Event
  /-- How the process terminated. -/
  outcome : Outcome
  /-- The molecule specification passed to `psi4.geometry`, when reached. -/
  molSpec : Option String
  /-- The joined geometry block `geom_str`, when reached. -/
  geomStr : Option String
deriving DecidableEq, Repr

/-- Embedding of `generate_esp_psi4(xyz_file)` (lines 20-83 of
`scripts/generate_esp.py`): psi4 import guarded by try/except ImportError;
`open`/`readlines`; `n_atoms = int(lines[0].strip())`;
`comment = lines[1].strip()` (bound, never used); the geometry loop; the
progress prints; the engine calls; then the `ESP.cube` existence check and
rename.  Unguarded indexing and `int()` failures surface as `raised`
outcomes, matching the script's uncaught exceptions. -/
def generate_esp_psi4 (env : Env) (fs : FS) (xyz_file : String) : RunResult :=
  if env.psi4Available then
    match FS.lookupFile fs xyz_file with
    | none =>
        { fs := fs, stdout := [], events := [.importPsi4, .openRead xyz_file],
          outcome := .raised "FileNotFoundError", molSpec := none, geomStr := none }
    | some lines =>
      match lines.get? 0 with
      | none =>
          { fs := fs, stdout := [], events := [.importPsi4, .openRead xyz_file],
            outcome := .raised "IndexError", molSpec := none, geomStr := none }
      | some line0 =>
        match pyInt line0 with
        | none =>
            { fs := fs, stdout := [], events := [.importPsi4, .openRead xyz_file],
              outcome := .raised "ValueError", molSpec := none, geomStr := none }
        | some n_atoms =>
          match lines.get? 1 with
          | none =>
              { fs := fs, stdout := [], events := [.importPsi4, .openRead xyz_file],
                outcome := .raised "IndexError", molSpec := none, geomStr := none }
          | some _comment =>
            match buildGeomLines lines 2 (if n_atoms ≤ 0 then 0 else n_atoms.toNat) with
            | none =>
                { fs := fs, stdout := [], events := [.importPsi4, .openRead xyz_file],
                  outcome := .raised "IndexError", molSpec := none, geomStr := none }
            | some geom_lines =>
                let geom_str := String.intercalate "\n" geom_lines
                let fs1 := if env.engineProducesCube
                           then FS.setFile fs "ESP.cube" env.cubeContent else fs
                let base_name := splitextRoot xyz_file
                let cube_file := base_name ++ "_esp.cube"
                let runOut := ["Running DFT calculation on " ++ xyz_file ++ "...",
                               "This may take a few minutes...",
                               "SCF Energy: " ++ env.scfEnergy ++ " Hartree"]
                if (FS.lookupFile fs1 "ESP.cube").isSome then
                  { fs := FS.rename fs1 "ESP.cube" cube_file,
                    stdout := runOut ++
                      ["\nESP cube file created: " ++ cube_file,
                       "\nNow run:",
                       "  ./charge_optimizer " ++ xyz_file ++ " " ++ cube_file],
                    events := [.importPsi4, .openRead xyz_file, .energyCalc, .cubeprop,
                               .existsCheck "ESP.cube", .rename "ESP.cube" cube_file],
                    outcome := .finished,
                    molSpec := some (mkMolSpec geom_str),
                    geomStr := some geom_str }
                else
                  { fs := fs1,
                    stdout := runOut ++ ["\nError: ESP.cube not generated"],
                    events := [.importPsi4, .openRead xyz_file, .energyCalc, .cubeprop,
                               .existsCheck "ESP.cube"],
                    outcome := .exited 1,
                    molSpec := some (mkMolSpec geom_str),
                    geomStr := some geom_str }
  else
    { fs := fs,
      stdout := ["Error: Psi4 not installed",
                 "Install with: conda install -c conda-forge psi4"],
      events := [.importPsi4],
      outcome := .exited 1, molSpec := none, geomStr := none }

/-- Prefix a run result's event trace with an earlier event. -/
def withPre (e : Event) (r : RunResult) : RunResult :=
  { r with events := e :: r.events }

/-- Embedding of the `__main__` block (lines 85-96): `len(sys.argv) != 2`
prints usage and exits 1; then `os.path.exists(xyz_file)` is checked (file
absent prints "Error: File not found" and exits 1); only then is
`generate_esp_psi4` called.  `argv` is the full `sys.argv`, program name
included, so the two-element pattern is exactly `len(sys.argv) == 2`. -/
def main_script (env : Env) (fs : FS) (argv : List String) : RunResult :=
  match argv with
  | [_, xyz_file] =>
      if FS.lookupFile fs xyz_file = none then
        { fs := fs, stdout := ["Error: File not found: " ++ xyz_file],
          events := [.existsCheck xyz_file],
          outcome := .exited 1, molSpec := none, geomStr := none }
      else
        withPre (.existsCheck xyz_file) (generate_esp_psi4 env fs xyz_file)
  | _ =>
      { fs := fs, stdout := ["Usage: python generate_esp.py molecule.xyz"],
        events := [], outcome := .exited 1, molSpec := none, geomStr := none }

/-- Geometry block the script builds: the first `n` atom lines, each
stripped, joined with newlines. -/
def strippedGeom (rest : List String) (n : Nat) : String :=
  String.intercalate "\n" ((rest.take n).map pyStrip)

/-- Concrete engine model for witnesses: psi4 importable, engine writes
`ESP.cube`. -/
def envOk : Env :=
  { psi4Available := true, engineProducesCube := true,
    cubeContent := ["cube-data"], scfEnergy := "-76.123456" }

/-- Concrete engine model for witnesses: psi4 importable, engine fails to
write `ESP.cube`. -/
def envNoCube : Env :=
  { psi4Available := true, engineProducesCube := false,
    cubeContent := [], scfEnergy := "-76.123456" }

/-- Concrete engine model for witnesses: psi4 not importable. -/
def envNoPsi4 : Env :=
  { psi4Available := false, engineProducesCube := false,
    cubeContent := [], scfEnergy := "0.000000" }

/-- Atom lines of the concrete water input used by witnesses. -/
def waterAtoms : List String :=
  ["O 0.0 0.0 0.0", "H 0.0 0.0 0.957", "H 0.928 0.0 -0.239"]

/-- Concrete working directory holding only `water.xyz`. -/
def waterFS : FS := [("water.xyz", "3" :: "water" :: waterAtoms)]

/-! ### Filesystem lemmas -/

/-- Characterisation of `lookupFile` after `setFile`. -/
theorem lookupFile_setFile (fs : FS) (p q : String) (c : List String) :
    FS.lookupFile (FS.setFile fs p c) q =
      if q = p then some c else FS.lookupFile fs q := by
  induction fs with
  | nil => simp [FS.setFile, FS.lookupFile]
  | cons e rest ih =>
    obtain ⟨a, d⟩ := e
    by_cases hpa : p = a
    · subst hpa
      by_cases hqp : q = p <;> simp [FS.setFile, FS.lookupFile, hqp]
    · by_cases hqa : q = a
      · subst hqa
        have hqp : ¬ q = p := fun h => hpa h.symm
        simp [FS.setFile, FS.lookupFile, hpa, hqp]
      · simp [FS.setFile, FS.lookupFile, hpa, hqa, ih]

/-- Characterisation of `lookupFile` after `removeFile`. -/
theorem lookupFile_removeFile (fs : FS) (p q : String) :
    FS.lookupFile (FS.removeFile fs p) q =
      if q = p then none else FS.lookupFile fs q := by
  induction fs with
  | nil => simp [FS.removeFile, FS.lookupFile]
  | cons e rest ih =>
    obtain ⟨a, d⟩ := e
    by_cases hpa : p = a
    · subst hpa
      by_cases hqp : q = p
      · subst hqp
        simp [FS.removeFile, FS.lookupFile, ih]
      · simp [FS.removeFile, FS.lookupFile, hqp, ih]
    · by_cases hqa : q = a
      · subst hqa
        have hqp : ¬ q = p := fun h => hpa h.symm
        simp [FS.removeFile, FS.lookupFile, hpa, hqp]
      · simp [FS.removeFile, FS.lookupFile, hpa, hqa, ih]

/-- Characterisation of `lookupFile` after a successful `rename`. -/
theorem lookupFile_rename (fs : FS) (src dst q : String) (c : List String)
    (hsrc : FS.lookupFile fs src = some c) :
    FS.lookupFile (FS.rename fs src dst) q =
      if q = dst then some c
      else if q = src then none
      else FS.lookupFile fs q := by
  rw [FS.rename, hsrc, lookupFile_setFile, lookupFile_removeFile]

/-! ### Parsing lemmas -/

/-- Loop-count normalisation: for a non-negative `n_atoms`, the guarded
iteration count of the geometry loop is `n` itself. -/
theorem loopCount_coe (n : Nat) :
    (if ((n : Int) ≤ 0) then 0 else ((n : Int)).toNat) = n := by
  split <;> omega

/-- Success case of the geometry loop: when all `k` indices are in range the
loop collects the stripped lines `i, i+1, ..., i+k-1`. -/
theorem buildGeomLines_of_le {lines : List String} :
    ∀ {k i : Nat}, i + k ≤ lines.length →
      buildGeomLines lines i k = some (((lines.drop i).take k).map pyStrip) := by
  intro k
  induction k with
  | zero => intro i h; simp [buildGeomLines]
  | succ k ih =>
    intro i h
    have hi : i < lines.length := by omega
    rw [buildGeomLines, List.get?_eq_get hi, ih (by omega)]
    simp only [Option.map_some', Option.some.injEq]
    rw [List.drop_eq_get_cons hi, List.take_succ_cons, List.map_cons]

/-- Failure case of the geometry loop: when the last index `i + k` is out of
range the loop raises `IndexError`. -/
theorem buildGeomLines_none {lines : List String} :
    ∀ {k i : Nat}, lines.length < i + (k + 1) →
      buildGeomLines lines i (k + 1) = none := by
  intro k
  induction k with
  | zero =>
    intro i h
    rw [buildGeomLines, List.get?_eq_none.mpr (by omega)]
  | succ k ih =>
    intro i h
    rw [buildGeomLines]
    cases hg : lines.get? i with
    | none => rfl
    | some l => rw [ih (by omega)]; rfl

/-! ### `os.path.splitext` lemmas -/

/-- A successful `rfindIdx` really points at an occurrence of `c`. -/
theorem rfindIdx_mem {c : Char} : ∀ {cs : List Char} {r : Nat},
    rfindIdx c cs = some r → cs.get? r = some c := by
  intro cs
  induction cs with
  | nil => intro r h; simp [rfindIdx] at h
  | cons a rest ih =>
    intro r h
    rw [rfindIdx] at h
    cases hx : rfindIdx c rest with
    | some r2 =>
      rw [hx] at h
      injection h with h2
      subst h2
      simpa using ih hx
    | none =>
      rw [hx] at h
      by_cases hac : a = c
      · rw [if_pos hac] at h
        injection h with h2
        subst h2
        simpa using hac
      · rw [if_neg hac] at h
        cases h

/-- Appending a fresh string can never reproduce the original. -/
theorem append_ne_self (q s : String) (hs : s.length ≠ 0) : q ++ s ≠ q := by
  intro h
  have hl := congrArg String.length h
  rw [String.length_append] at hl
  omega

/-- Key path fact: the computed cube-file name differs from the input path,
because `splitextRoot` either returns the whole path (and the suffix is
nonempty) or cuts just before a dot (and the suffix starts with `_`). -/
theorem splitextRoot_esp_ne (p : String) : splitextRoot p ++ "_esp.cube" ≠ p := by
  have hlen : ("_esp.cube" : String).length ≠ 0 := by decide
  rw [splitextRoot]
  cases hd : rfindIdx '.' p.data with
  | none => exact append_ne_self p _ hlen
  | some d =>
    have hdot : p.data.get? d = some '.' := rfindIdx_mem hd
    simp only
    split
    · exact append_ne_self p _ hlen
    · split
      · exact append_ne_self p _ hlen
      · intro h
        have hdata := congrArg String.data h
        rw [String.data_append] at hdata
        conv at hdata => rhs; rw [← List.take_append_drop d p.data]
        have hdlt : d < p.data.length := by
          by_contra hc
          rw [List.get?_eq_none.mpr (by omega)] at hdot
          cases hdot
        have htk : (String.mk (p.data.take d)).data = p.data.take d := rfl
        rw [htk] at hdata
        have hsfx : ("_esp.cube" : String).data = p.data.drop d :=
          List.append_cancel_left hdata
        have h0 : (p.data.drop d).get? 0 = some '.' := by
          rw [List.get?_drop]
          simpa using hdot
        rw [← hsfx] at h0
        cases h0

/-! ### Run-shape lemmas -/

/-- Literal index fact used to reduce `lines[0]`. -/
theorem get_zero (l0 l1 : String) (rest : List String) :
    (l0 :: l1 :: rest).get? 0 = some l0 := rfl

/-- Literal index fact used to reduce `lines[1]`. -/
theorem get_one (l0 l1 : String) (rest : List String) :
    (l0 :: l1 :: rest).get? 1 = some l1 := rfl

/-- Full description of a run of `generate_esp_psi4` on a readable input with
`n` declared atoms and at least `n` atom lines, when psi4 imports and the
engine produces `ESP.cube`: the run renames `ESP.cube` and finishes. -/
theorem generate_run_cube (env : Env) (fs : FS) (xyz l0 l1 : String)
    (rest : List String) (n : Nat)
    (hav : env.psi4Available = true)
    (hfs : FS.lookupFile fs xyz = some (l0 :: l1 :: rest))
    (hn : pyInt l0 = some (n : Int))
    (hlen : n ≤ rest.length)
    (hcube : env.engineProducesCube = true) :
    generate_esp_psi4 env fs xyz =
      { fs := FS.rename (FS.setFile fs "ESP.cube" env.cubeContent) "ESP.cube"
                (splitextRoot xyz ++ "_esp.cube"),
        stdout := ["Running DFT calculation on " ++ xyz ++ "...",
                   "This may take a few minutes...",
                   "SCF Energy: " ++ env.scfEnergy ++ " Hartree",
                   "\nESP cube file created: " ++ (splitextRoot xyz ++ "_esp.cube"),
                   "\nNow run:",
                   "  ./charge_optimizer " ++ xyz ++ " " ++ (splitextRoot xyz ++ "_esp.cube")],
        events := [.importPsi4, .openRead xyz, .energyCalc, .cubeprop,
                   .existsCheck "ESP.cube",
                   .rename "ESP.cube" (splitextRoot xyz ++ "_esp.cube")],
        outcome := .finished,
        molSpec := some (mkMolSpec (strippedGeom rest n)),
        geomStr := some (strippedGeom rest n) } := by
  have hbuild : buildGeomLines (l0 :: l1 :: rest) 2 n =
      some ((rest.take n).map pyStrip) := by
    have h2 : 2 + n ≤ (l0 :: l1 :: rest).length := by
      simp only [List.length_cons]
      omega
    simpa using buildGeomLines_of_le h2
  simp only [generate_esp_psi4, hav, hfs, get_zero, get_one, hn, loopCount_coe,
    hbuild, hcube, if_true, lookupFile_setFile, if_pos rfl, Option.isSome_some,
    ite_true, strippedGeom]
  rfl

/-- Full description of a run of `generate_esp_psi4` on a readable,
well-formed input when psi4 imports but the engine does not produce
`ESP.cube` and none pre-exists: the run prints the error and exits 1,
touching nothing. -/
theorem generate_run_nocube (env : Env) (fs : FS) (xyz l0 l1 : String)
    (rest : List String) (n : Nat)
    (hav : env.psi4Available = true)
    (hfs : FS.lookupFile fs xyz = some (l0 :: l1 :: rest))
    (hn : pyInt l0 = some (n : Int))
    (hlen : n ≤ rest.length)
    (hcube : env.engineProducesCube = false)
    (hno : FS.lookupFile fs "ESP.cube" = none) :
    generate_esp_psi4 env fs xyz =
      { fs := fs,
        stdout := ["Running DFT calculation on " ++ xyz ++ "...",
                   "This may take a few minutes...",
                   "SCF Energy: " ++ env.scfEnergy ++ " Hartree",
                   "\nError: ESP.cube not generated"],
        events := [.importPsi4, .openRead xyz, .energyCalc, .cubeprop,
                   .existsCheck "ESP.cube"],
        outcome := .exited 1,
        molSpec := some (mkMolSpec (strippedGeom rest n)),
        geomStr := some (strippedGeom rest n) } := by
  have hbuild : buildGeomLines (l0 :: l1 :: rest) 2 n =
      some ((rest.take n).map pyStrip) := by
    have h2 : 2 + n ≤ (l0 :: l1 :: rest).length := by
      simp only [List.length_cons]
      omega
    simpa using buildGeomLines_of_le h2
  simp only [generate_esp_psi4, hav, hfs, get_zero, get_one, hn, loopCount_coe,
    hbuild, hcube, if_false, hno, Option.isSome_none, ite_false, ite_true,
    if_true, strippedGeom, Bool.false_eq_true]
  rfl

/-- The computed cube-file name is never the engine's default name
(`..._esp.cube` has at least 9 characters, `ESP.cube` has 8). -/
theorem cubeFile_ne_ESP (p : String) :
    splitextRoot p ++ "_esp.cube" ≠ "ESP.cube" := by
  intro h
  have hl := congrArg String.length h
  rw [String.length_append] at hl
  have h9 : ("_esp.cube" : String).length = 9 := rfl
  have h8 : ("ESP.cube" : String).length = 8 := rfl
  omega

/-- The geometry loop never looks at the list head: shifting the start index
down one compensates for dropping the head. -/
theorem buildGeomLines_cons (x : String) (xs : List String) :
    ∀ (k i : Nat), buildGeomLines (x :: xs) (i + 1) k = buildGeomLines xs i k := by
  intro k
  induction k with
  | zero => intro i; rfl
  | succ k ih =>
    intro i
    rw [buildGeomLines, buildGeomLines, List.get?_cons_succ]
    cases hg : xs.get? i with
    | none => rfl
    | some l => rw [ih (i + 1)]
  
/-- The geometry loop, which starts at index 2, only ever reads the atom
lines after the two header lines. -/
theorem buildGeomLines_two (x y : String) (xs : List String) (k : Nat) :
    buildGeomLines (x :: y :: xs) 2 k = buildGeomLines xs 0 k := by
  have h1 : buildGeomLines (x :: y :: xs) 2 k = buildGeomLines (y :: xs) 1 k :=
    buildGeomLines_cons x (y :: xs) k 1
  have h2 : buildGeomLines (y :: xs) 1 k = buildGeomLines xs 0 k :=
    buildGeomLines_cons y xs k 0
  rw [h1, h2]

/-- Master lemma for comment independence: two runs on working directories
whose input files share the atom-count line and the atom lines (the comment
lines `ca` and `cb` may differ), and which agree on whether `ESP.cube`
pre-exists, have identical observable behaviour: same standard output, same
event trace, same outcome, same molecule specification and geometry block. -/
theorem generate_comment_obs (env : Env) (fsA fsB : FS) (xyz l0 ca cb : String)
    (rest : List String)
    (hA : FS.lookupFile fsA xyz = some (l0 :: ca :: rest))
    (hB : FS.lookupFile fsB xyz = some (l0 :: cb :: rest))
    (hesp : (FS.lookupFile fsA "ESP.cube").isSome
      = (FS.lookupFile fsB "ESP.cube").isSome) :
    ((generate_esp_psi4 env fsA xyz).stdout, (generate_esp_psi4 env fsA xyz).events,
      (generate_esp_psi4 env fsA xyz).outcome, (generate_esp_psi4 env fsA xyz).molSpec,
      (generate_esp_psi4 env fsA xyz).geomStr)
    = ((generate_esp_psi4 env fsB xyz).stdout, (generate_esp_psi4 env fsB xyz).events,
      (generate_esp_psi4 env fsB xyz).outcome, (generate_esp_psi4 env fsB xyz).molSpec,
      (generate_esp_psi4 env fsB xyz).geomStr) := by
  cases hav : env.psi4Available with
  | false =>
    simp only [generate_esp_psi4, hav, Bool.false_eq_true, if_false]
  | true =>
    simp only [generate_esp_psi4, hav, if_true, hA, hB, get_zero, get_one,
      buildGeomLines_two]
    cases hp : pyInt l0 with
    | none => rfl
    | some n =>
      dsimp only
      cases hbuild : buildGeomLines rest 0 (if n ≤ 0 then 0 else n.toNat) with
      | none => rfl
      | some gl =>
        cases hec : env.engineProducesCube with
        | true =>
          simp only [hec, if_true, lookupFile_setFile, if_pos rfl,
            Option.isSome_some, ite_true]
        | false =>
          simp only [hec, Bool.false_eq_true, if_false]
          cases hcond : (FS.lookupFile fsA "ESP.cube").isSome with
          | true =>
            have hcondB : (FS.lookupFile fsB "ESP.cube").isSome = true := by
              rw [← hesp]; exact hcond
            simp only [hcond, hcondB, ite_true]
          | false =>
            have hcondB : (FS.lookupFile fsB "ESP.cube").isSome = false := by
              rw [← hesp]; exact hcond
            simp only [hcond, hcondB, Bool.false_eq_true, if_false]

/-! ### Claims -/

/-- C1: counterexample.  On a well-formed one-atom XYZ file whose atom line
carries leading and trailing blanks, the geometry block `geom_str` holds the
stripped line, not the file's atom line copied character for character:
line 41 applies `.strip()` to every atom line. -/
theorem c1_counterexample :
    (generate_esp_psi4 envOk [("m.xyz", ["1", "comment", "  H 0.0 0.0 0.0  "])]
        "m.xyz").geomStr = some "H 0.0 0.0 0.0" ∧
      ("H 0.0 0.0 0.0" : String) ≠ "  H 0.0 0.0 0.0  " :=
  ⟨by decide, by decide⟩

/-- C1 (amended): for every readable XYZ input declaring `n` atoms with at
least `n` atom lines present, the geometry block `geom_str` consists of
exactly the first `n` atom lines in order, each copied with its leading and
trailing whitespace stripped (otherwise verbatim), joined by newlines. -/
theorem c1_geom_block (env : Env) (fs : FS) (xyz l0 l1 : String)
    (rest : List String) (n : Nat)
    (hav : env.psi4Available = true)
    (hfs : FS.lookupFile fs xyz = some (l0 :: l1 :: rest))
    (hn : pyInt l0 = some (n : Int))
    (hlen : n ≤ rest.length) :
    (generate_esp_psi4 env fs xyz).geomStr = some (strippedGeom rest n) := by
  have hbuild : buildGeomLines (l0 :: l1 :: rest) 2 n =
      some ((rest.take n).map pyStrip) := by
    have h2 : 2 + n ≤ (l0 :: l1 :: rest).length := by
      simp only [List.length_cons]; omega
    simpa using buildGeomLines_of_le h2
  simp only [generate_esp_psi4, hav, hfs, get_zero, get_one, hn, loopCount_coe,
    hbuild, if_true, ite_true, strippedGeom]
  split <;> split <;> rfl

/-- C1 (amended) witness: a one-atom file whose atom line has one leading
blank. -/
theorem c1_geom_block_witness :
    (envOk.psi4Available = true ∧
      FS.lookupFile [("m.xyz", ["1", "c", " H 1.0 2.0 3.0"])] "m.xyz"
        = some ("1" :: "c" :: [" H 1.0 2.0 3.0"]) ∧
      pyInt "1" = some ((1 : Nat) : Int) ∧
      1 ≤ ([" H 1.0 2.0 3.0"] : List String).length) ∧
    (generate_esp_psi4 envOk [("m.xyz", ["1", "c", " H 1.0 2.0 3.0"])]
        "m.xyz").geomStr = some (strippedGeom [" H 1.0 2.0 3.0"] 1) :=
  ⟨⟨rfl, by decide, by decide, by decide⟩,
    c1_geom_block envOk [("m.xyz", ["1", "c", " H 1.0 2.0 3.0"])] "m.xyz"
      "1" "c" [" H 1.0 2.0 3.0"] 1 rfl (by decide) (by decide) (by decide)⟩

/-- C2: whenever the engine leaves `ESP.cube` after the cube-generation step
(and the run reaches it: psi4 imports, the input is readable and
well-formed), the script renames `ESP.cube` to `<input_basename>_esp.cube`:
afterwards that file holds the engine's cube contents, `ESP.cube` no longer
exists, the rename is in the trace, and the run finishes normally. -/
theorem c2_rename_success (env : Env) (fs : FS) (xyz l0 l1 : String)
    (rest : List String) (n : Nat)
    (hav : env.psi4Available = true)
    (hfs : FS.lookupFile fs xyz = some (l0 :: l1 :: rest))
    (hn : pyInt l0 = some (n : Int))
    (hlen : n ≤ rest.length)
    (hcube : env.engineProducesCube = true) :
    FS.lookupFile (generate_esp_psi4 env fs xyz).fs
        (splitextRoot xyz ++ "_esp.cube") = some env.cubeContent ∧
    FS.lookupFile (generate_esp_psi4 env fs xyz).fs "ESP.cube" = none ∧
    Event.rename "ESP.cube" (splitextRoot xyz ++ "_esp.cube")
        ∈ (generate_esp_psi4 env fs xyz).events ∧
    (generate_esp_psi4 env fs xyz).outcome = .finished := by
  rw [generate_run_cube env fs xyz l0 l1 rest n hav hfs hn hlen hcube]
  have hsrc : FS.lookupFile (FS.setFile fs "ESP.cube" env.cubeContent)
      "ESP.cube" = some env.cubeContent := by
    rw [lookupFile_setFile]; simp
  have hne : ("ESP.cube" : String) ≠ splitextRoot xyz ++ "_esp.cube" :=
    fun h => cubeFile_ne_ESP xyz h.symm
  refine ⟨?_, ?_, ?_, rfl⟩
  · rw [lookupFile_rename _ _ _ _ _ hsrc, if_pos rfl]
  · rw [lookupFile_rename _ _ _ _ _ hsrc, if_neg hne, if_pos rfl]
  · simp

/-- C2 witness: invoking on `water.xyz` (with the engine leaving `ESP.cube`)
yields `water_esp.cube` — the computed name `splitextRoot "water.xyz" ++
"_esp.cube"` is literally `"water_esp.cube"` — and removes `ESP.cube`. -/
theorem c2_rename_success_witness :
    (envOk.psi4Available = true ∧
      FS.lookupFile waterFS "water.xyz" = some ("3" :: "water" :: waterAtoms) ∧
      pyInt "3" = some ((3 : Nat) : Int) ∧
      3 ≤ waterAtoms.length ∧
      envOk.engineProducesCube = true) ∧
    splitextRoot "water.xyz" ++ "_esp.cube" = "water_esp.cube" ∧
    (FS.lookupFile (generate_esp_psi4 envOk waterFS "water.xyz").fs
        (splitextRoot "water.xyz" ++ "_esp.cube") = some envOk.cubeContent ∧
      FS.lookupFile (generate_esp_psi4 envOk waterFS "water.xyz").fs
        "ESP.cube" = none ∧
      Event.rename "ESP.cube" (splitextRoot "water.xyz" ++ "_esp.cube")
        ∈ (generate_esp_psi4 envOk waterFS "water.xyz").events ∧
      (generate_esp_psi4 envOk waterFS "water.xyz").outcome = .finished) :=
  ⟨⟨rfl, by decide, by decide, by decide, rfl⟩, by decide,
    c2_rename_success envOk waterFS "water.xyz" "3" "water" waterAtoms 3
      rfl (by decide) (by decide) (by decide) rfl⟩

/-- C3: if after the cube-generation step no `ESP.cube` exists (the engine
did not produce one and none pre-existed), the script exits with status 1,
performs no rename, and leaves the filesystem exactly as it was. -/
theorem c3_missing_cube (env : Env) (fs : FS) (xyz l0 l1 : String)
    (rest : List String) (n : Nat)
    (hav : env.psi4Available = true)
    (hfs : FS.lookupFile fs xyz = some (l0 :: l1 :: rest))
    (hn : pyInt l0 = some (n : Int))
    (hlen : n ≤ rest.length)
    (hcube : env.engineProducesCube = false)
    (hno : FS.lookupFile fs "ESP.cube" = none) :
    (generate_esp_psi4 env fs xyz).outcome = .exited 1 ∧
    (generate_esp_psi4 env fs xyz).fs = fs ∧
    ∀ s d, Event.rename s d ∉ (generate_esp_psi4 env fs xyz).events := by
  rw [generate_run_nocube env fs xyz l0 l1 rest n hav hfs hn hlen hcube hno]
  refine ⟨rfl, rfl, ?_⟩
  intro s d h
  simp at h

/-- C3 witness: `water.xyz` run with an engine that produces no cube file in
a directory containing no `ESP.cube`. -/
theorem c3_missing_cube_witness :
    (envNoCube.psi4Available = true ∧
      FS.lookupFile waterFS "water.xyz" = some ("3" :: "water" :: waterAtoms) ∧
      pyInt "3" = some ((3 : Nat) : Int) ∧
      3 ≤ waterAtoms.length ∧
      envNoCube.engineProducesCube = false ∧
      FS.lookupFile waterFS "ESP.cube" = none) ∧
    ((generate_esp_psi4 envNoCube waterFS "water.xyz").outcome = .exited 1 ∧
      (generate_esp_psi4 envNoCube waterFS "water.xyz").fs = waterFS ∧
      ∀ s d, Event.rename s d
        ∉ (generate_esp_psi4 envNoCube waterFS "water.xyz").events) :=
  ⟨⟨rfl, by decide, by decide, by decide, rfl, by decide⟩,
    c3_missing_cube envNoCube waterFS "water.xyz" "3" "water" waterAtoms 3
      rfl (by decide) (by decide) (by decide) rfl (by decide)⟩

/-- C4: atom-count mismatch.  (a) When the declared count `n` exceeds the
number of atom lines present (fewer than `n + 2` lines in the file), the
geometry loop indexes past the end of the line list and the run dies with an
uncaught IndexError.  (b) When more than `n` atom lines are present, only
the first `n` are used and the run proceeds silently, finishing with the
normal success output and no check or diagnostic. -/
theorem c4_count_mismatch :
    (∀ (env : Env) (fs : FS) (xyz l0 l1 : String) (rest : List String) (n : Nat),
        env.psi4Available = true →
        FS.lookupFile fs xyz = some (l0 :: l1 :: rest) →
        pyInt l0 = some (n : Int) →
        rest.length < n →
        (generate_esp_psi4 env fs xyz).outcome = .raised "IndexError") ∧
    (∀ (env : Env) (fs : FS) (xyz l0 l1 : String) (rest : List String) (n : Nat),
        env.psi4Available = true →
        FS.lookupFile fs xyz = some (l0 :: l1 :: rest) →
        pyInt l0 = some (n : Int) →
        n < rest.length →
        env.engineProducesCube = true →
        (generate_esp_psi4 env fs xyz).geomStr = some (strippedGeom rest n) ∧
        (generate_esp_psi4 env fs xyz).outcome = .finished ∧
        (generate_esp_psi4 env fs xyz).stdout =
          ["Running DFT calculation on " ++ xyz ++ "...",
           "This may take a few minutes...",
           "SCF Energy: " ++ env.scfEnergy ++ " Hartree",
           "\nESP cube file created: " ++ (splitextRoot xyz ++ "_esp.cube"),
           "\nNow run:",
           "  ./charge_optimizer " ++ xyz ++ " " ++
             (splitextRoot xyz ++ "_esp.cube")]) := by
  constructor
  · intro env fs xyz l0 l1 rest n hav hfs hn hlen
    obtain ⟨k, rfl⟩ : ∃ k, n = k + 1 := ⟨n - 1, by omega⟩
    have hbn : buildGeomLines (l0 :: l1 :: rest) 2 (k + 1) = none := by
      apply buildGeomLines_none
      simp only [List.length_cons]
      omega
    simp only [generate_esp_psi4, hav, hfs, get_zero, get_one, hn, loopCount_coe,
      hbn, if_true, ite_true]
  · intro env fs xyz l0 l1 rest n hav hfs hn hlen hcube
    rw [generate_run_cube env fs xyz l0 l1 rest n hav hfs hn (by omega) hcube]
    exact ⟨rfl, rfl, rfl⟩

/-- C4 witness: an under-supplied file (`3` declared, one atom line) raises
IndexError; an over-supplied file (`1` declared, two atom lines) silently
keeps only the first atom line. -/
theorem c4_count_mismatch_witness :
    (envOk.psi4Available = true ∧
      FS.lookupFile [("under.xyz", ["3", "c", "H 0 0 0"])] "under.xyz"
        = some ("3" :: "c" :: ["H 0 0 0"]) ∧
      pyInt "3" = some ((3 : Nat) : Int) ∧
      (["H 0 0 0"] : List String).length < 3 ∧
      (generate_esp_psi4 envOk [("under.xyz", ["3", "c", "H 0 0 0"])]
          "under.xyz").outcome = .raised "IndexError") ∧
    (envOk.psi4Available = true ∧
      FS.lookupFile [("over.xyz", ["1", "c", "H 0 0 0", "He 1 1 1"])] "over.xyz"
        = some ("1" :: "c" :: ["H 0 0 0", "He 1 1 1"]) ∧
      pyInt "1" = some ((1 : Nat) : Int) ∧
      1 < (["H 0 0 0", "He 1 1 1"] : List String).length ∧
      envOk.engineProducesCube = true ∧
      (generate_esp_psi4 envOk [("over.xyz", ["1", "c", "H 0 0 0", "He 1 1 1"])]
          "over.xyz").geomStr = some (strippedGeom ["H 0 0 0", "He 1 1 1"] 1)) := by
  refine ⟨⟨rfl, by decide, by decide, by decide, ?_⟩,
          ⟨rfl, by decide, by decide, by decide, rfl, ?_⟩⟩
  · exact c4_count_mismatch.1 envOk [("under.xyz", ["3", "c", "H 0 0 0"])]
      "under.xyz" "3" "c" ["H 0 0 0"] 3 rfl (by decide) (by decide) (by decide)
  · exact (c4_count_mismatch.2 envOk [("over.xyz", ["1", "c", "H 0 0 0", "He 1 1 1"])]
      "over.xyz" "1" "c" ["H 0 0 0", "He 1 1 1"] 1 rfl (by decide) (by decide)
      (by decide) rfl).1

/-- C5: counterexample.  On an existing file whose first line is not an
integer, the run dies with an uncaught ValueError from `int(...)` (line 35)
and prints nothing to standard output — it is not handled like the other
error classes, which print a message and call `sys.exit(1)`. -/
theorem c5_counterexample :
    (main_script envOk [("bad.xyz", ["three", "comment"])]
        ["generate_esp.py", "bad.xyz"]).outcome = .raised "ValueError" ∧
      (main_script envOk [("bad.xyz", ["three", "comment"])]
        ["generate_esp.py", "bad.xyz"]).stdout = [] :=
  ⟨by decide, by decide⟩

/-- C5 (amended): an existing but malformed input (first line not an
integer) terminates the process with the interpreter's status 1 for an
uncaught ValueError, with no message printed to standard output by the
script — unlike the other three error classes, which print a diagnostic and
call `sys.exit(1)`. -/
theorem c5_malformed_uncaught (env : Env) (fs : FS) (prog xyz l0 l1 : String)
    (rest : List String)
    (hav : env.psi4Available = true)
    (hfs : FS.lookupFile fs xyz = some (l0 :: l1 :: rest))
    (hbad : pyInt l0 = none) :
    (main_script env fs [prog, xyz]).outcome = .raised "ValueError" ∧
    exitCodeOf (main_script env fs [prog, xyz]).outcome = 1 ∧
    (main_script env fs [prog, xyz]).stdout = [] := by
  have hne : ¬ (FS.lookupFile fs xyz = none) := by
    rw [hfs]; exact Option.some_ne_none _
  have hmain : main_script env fs [prog, xyz]
      = withPre (.existsCheck xyz) (generate_esp_psi4 env fs xyz) := by
    dsimp only [main_script]
    rw [if_neg hne]
  rw [hmain]
  simp only [generate_esp_psi4, hav, hfs, get_zero, hbad, if_true, ite_true,
    withPre]
  refine ⟨?_, ?_, ?_⟩ <;> first
    | rfl
    | trivial

/-- C5 witness: the file `bad2.xyz` whose first line is `"three"`. -/
theorem c5_malformed_uncaught_witness :
    (envOk.psi4Available = true ∧
      FS.lookupFile [("bad2.xyz", ["three", "c", "H 0 0 0"])] "bad2.xyz"
        = some ("three" :: "c" :: ["H 0 0 0"]) ∧
      pyInt "three" = none) ∧
    ((main_script envOk [("bad2.xyz", ["three", "c", "H 0 0 0"])]
        ["generate_esp.py", "bad2.xyz"]).outcome = .raised "ValueError" ∧
      exitCodeOf (main_script envOk [("bad2.xyz", ["three", "c", "H 0 0 0"])]
        ["generate_esp.py", "bad2.xyz"]).outcome = 1 ∧
      (main_script envOk [("bad2.xyz", ["three", "c", "H 0 0 0"])]
        ["generate_esp.py", "bad2.xyz"]).stdout = []) :=
  ⟨⟨rfl, by decide, by decide⟩,
    c5_malformed_uncaught envOk [("bad2.xyz", ["three", "c", "H 0 0 0"])]
      "generate_esp.py" "bad2.xyz" "three" "c" ["H 0 0 0"]
      rfl (by decide) (by decide)⟩

/-- C6: counterexample.  With psi4 missing and the input file missing, the
script prints the file-not-found message — not the installation hint — and
never attempts the import: `__main__` checks `os.path.exists` (line 92)
before `generate_esp_psi4` runs its import check (line 24). -/
theorem c6_counterexample :
    (main_script envNoPsi4 [] ["generate_esp.py", "missing.xyz"]).stdout
        = ["Error: File not found: missing.xyz"] ∧
      (main_script envNoPsi4 [] ["generate_esp.py", "missing.xyz"]).stdout
        ≠ ["Error: Psi4 not installed",
           "Install with: conda install -c conda-forge psi4"] ∧
      Event.importPsi4
        ∉ (main_script envNoPsi4 [] ["generate_esp.py", "missing.xyz"]).events :=
  ⟨by decide, by decide, by decide⟩

/-- C6 (amended): the input-file existence check in `__main__` precedes the
dependency import check inside `generate_esp_psi4`: with one file argument
where both the dependency and the input file are missing, the script exits
with status 1 showing the file-not-found message, and the import is never
attempted. -/
theorem c6_file_check_first (env : Env) (fs : FS) (prog xyz : String)
    (hav : env.psi4Available = false)
    (hmiss : FS.lookupFile fs xyz = none) :
    (main_script env fs [prog, xyz]).stdout
        = ["Error: File not found: " ++ xyz] ∧
    (main_script env fs [prog, xyz]).outcome = .exited 1 ∧
    Event.importPsi4 ∉ (main_script env fs [prog, xyz]).events := by
  have hm : main_script env fs [prog, xyz] =
      { fs := fs, stdout := ["Error: File not found: " ++ xyz],
        events := [.existsCheck xyz],
        outcome := .exited 1, molSpec := none, geomStr := none } := by
    dsimp only [main_script]
    rw [if_pos hmiss]
  rw [hm]
  refine ⟨rfl, rfl, ?_⟩
  simp

/-- C6 witness: psi4 missing, `missing2.xyz` missing. -/
theorem c6_file_check_first_witness :
    (envNoPsi4.psi4Available = false ∧
      FS.lookupFile [] "missing2.xyz" = none) ∧
    ((main_script envNoPsi4 [] ["generate_esp.py", "missing2.xyz"]).stdout
        = ["Error: File not found: " ++ "missing2.xyz"] ∧
      (main_script envNoPsi4 [] ["generate_esp.py", "missing2.xyz"]).outcome
        = .exited 1 ∧
      Event.importPsi4
        ∉ (main_script envNoPsi4 [] ["generate_esp.py", "missing2.xyz"]).events) :=
  ⟨⟨rfl, by decide⟩,
    c6_file_check_first envNoPsi4 [] "generate_esp.py" "missing2.xyz"
      rfl (by decide)⟩

/-- C7: when psi4 cannot be imported, the script exits with status 1 without
ever opening the input file for reading and without running any calculation,
leaving the filesystem untouched — the dependency check precedes any read of
the molecule file. -/
theorem c7_import_before_read (env : Env) (fs : FS) (prog xyz : String)
    (hav : env.psi4Available = false) :
    (main_script env fs [prog, xyz]).outcome = .exited 1 ∧
    (∀ p, Event.openRead p ∉ (main_script env fs [prog, xyz]).events) ∧
    Event.energyCalc ∉ (main_script env fs [prog, xyz]).events ∧
    (main_script env fs [prog, xyz]).fs = fs := by
  cases hm : FS.lookupFile fs xyz with
  | none =>
    have heq : main_script env fs [prog, xyz] =
        { fs := fs, stdout := ["Error: File not found: " ++ xyz],
          events := [.existsCheck xyz],
          outcome := .exited 1, molSpec := none, geomStr := none } := by
      dsimp only [main_script]
      rw [if_pos hm]
    rw [heq]
    refine ⟨rfl, ?_, ?_, rfl⟩
    · intro p; simp
    · simp
  | some lines =>
    have hne : ¬ (FS.lookupFile fs xyz = none) := by
      rw [hm]; exact Option.some_ne_none _
    have heq : main_script env fs [prog, xyz]
        = withPre (.existsCheck xyz) (generate_esp_psi4 env fs xyz) := by
      dsimp only [main_script]
      rw [if_neg hne]
    have hg : generate_esp_psi4 env fs xyz =
        { fs := fs,
          stdout := ["Error: Psi4 not installed",
                     "Install with: conda install -c conda-forge psi4"],
          events := [.importPsi4],
          outcome := .exited 1, molSpec := none, geomStr := none } := by
      simp only [generate_esp_psi4, hav, Bool.false_eq_true, if_false]
    rw [heq, hg]
    refine ⟨rfl, ?_, ?_, rfl⟩
    · intro p; simp [withPre]
    · simp [withPre]

/-- C7 witness: psi4 missing with `water.xyz` present. -/
theorem c7_import_before_read_witness :
    envNoPsi4.psi4Available = false ∧
    ((main_script envNoPsi4 waterFS ["generate_esp.py", "water.xyz"]).outcome
        = .exited 1 ∧
      (∀ p, Event.openRead p
        ∉ (main_script envNoPsi4 waterFS ["generate_esp.py", "water.xyz"]).events) ∧
      Event.energyCalc
        ∉ (main_script envNoPsi4 waterFS ["generate_esp.py", "water.xyz"]).events ∧
      (main_script envNoPsi4 waterFS ["generate_esp.py", "water.xyz"]).fs
        = waterFS) :=
  ⟨rfl, c7_import_before_read envNoPsi4 waterFS "generate_esp.py" "water.xyz" rfl⟩

/-- C8: the comment line has no influence.  Two runs whose working
directories differ only in the input file's second (comment) line produce
the same standard output, the same event trace, the same outcome, the same
molecule specification string handed to the engine, and the same geometry
block; the comment line is read but only consumed. -/
theorem c8_comment_no_influence (env : Env) (fs : FS) (xyz l0 ca cb : String)
    (rest : List String) :
    (generate_esp_psi4 env (FS.setFile fs xyz (l0 :: ca :: rest)) xyz).stdout
      = (generate_esp_psi4 env (FS.setFile fs xyz (l0 :: cb :: rest)) xyz).stdout ∧
    (generate_esp_psi4 env (FS.setFile fs xyz (l0 :: ca :: rest)) xyz).events
      = (generate_esp_psi4 env (FS.setFile fs xyz (l0 :: cb :: rest)) xyz).events ∧
    (generate_esp_psi4 env (FS.setFile fs xyz (l0 :: ca :: rest)) xyz).outcome
      = (generate_esp_psi4 env (FS.setFile fs xyz (l0 :: cb :: rest)) xyz).outcome ∧
    (generate_esp_psi4 env (FS.setFile fs xyz (l0 :: ca :: rest)) xyz).molSpec
      = (generate_esp_psi4 env (FS.setFile fs xyz (l0 :: cb :: rest)) xyz).molSpec ∧
    (generate_esp_psi4 env (FS.setFile fs xyz (l0 :: ca :: rest)) xyz).geomStr
      = (generate_esp_psi4 env (FS.setFile fs xyz (l0 :: cb :: rest)) xyz).geomStr := by
  have hA : FS.lookupFile (FS.setFile fs xyz (l0 :: ca :: rest)) xyz
      = some (l0 :: ca :: rest) := by
    rw [lookupFile_setFile]; simp
  have hB : FS.lookupFile (FS.setFile fs xyz (l0 :: cb :: rest)) xyz
      = some (l0 :: cb :: rest) := by
    rw [lookupFile_setFile]; simp
  have hesp : (FS.lookupFile (FS.setFile fs xyz (l0 :: ca :: rest)) "ESP.cube").isSome
      = (FS.lookupFile (FS.setFile fs xyz (l0 :: cb :: rest)) "ESP.cube").isSome := by
    rw [lookupFile_setFile, lookupFile_setFile]
    by_cases hx : ("ESP.cube" : String) = xyz <;> simp [hx]
  have h := generate_comment_obs env (FS.setFile fs xyz (l0 :: ca :: rest))
    (FS.setFile fs xyz (l0 :: cb :: rest)) xyz l0 ca cb rest hA hB hesp
  simp only [Prod.mk.injEq] at h
  exact h

/-- C9: with zero or more than one command-line argument the script prints
the usage text and exits with status 1, generating no I/O events at all (no
existence check, no read, no rename) and leaving the filesystem untouched. -/
theorem c9_usage_no_io (env : Env) (fs : FS) (argv : List String)
    (h : argv.length ≠ 2) :
    (main_script env fs argv).stdout
        = ["Usage: python generate_esp.py molecule.xyz"] ∧
    (main_script env fs argv).outcome = .exited 1 ∧
    (main_script env fs argv).events = [] ∧
    (main_script env fs argv).fs = fs := by
  cases argv with
  | nil => exact ⟨rfl, rfl, rfl, rfl⟩
  | cons a t =>
    cases t with
    | nil => exact ⟨rfl, rfl, rfl, rfl⟩
    | cons b t2 =>
      cases t2 with
      | nil => exact absurd rfl h
      | cons c t3 => exact ⟨rfl, rfl, rfl, rfl⟩

/-- C9 witness: a bare invocation with no file argument. -/
theorem c9_usage_no_io_witness :
    (["generate_esp.py"] : List String).length ≠ 2 ∧
    ((main_script envOk waterFS ["generate_esp.py"]).stdout
        = ["Usage: python generate_esp.py molecule.xyz"] ∧
      (main_script envOk waterFS ["generate_esp.py"]).outcome = .exited 1 ∧
      (main_script envOk waterFS ["generate_esp.py"]).events = [] ∧
      (main_script envOk waterFS ["generate_esp.py"]).fs = waterFS) :=
  ⟨by decide, c9_usage_no_io envOk waterFS ["generate_esp.py"] (by decide)⟩

/-- C10: frame property of the success path.  Writing the engine's
`ESP.cube` and then renaming it to the computed cube file are the only
mutations: every other path keeps its original contents; a pre-existing file
at the output path is silently replaced; the input file survives unchanged
at its original path unless it is itself literally named `ESP.cube`, in
which case the rename has moved it away; and the trace shows exactly one
open-for-read and one rename. -/
theorem c10_frame_rename_only (env : Env) (fs : FS) (xyz l0 l1 : String)
    (rest : List String) (n : Nat)
    (hav : env.psi4Available = true)
    (hfs : FS.lookupFile fs xyz = some (l0 :: l1 :: rest))
    (hn : pyInt l0 = some (n : Int))
    (hlen : n ≤ rest.length)
    (hcube : env.engineProducesCube = true) :
    (∀ p, p ≠ "ESP.cube" → p ≠ splitextRoot xyz ++ "_esp.cube" →
        FS.lookupFile (generate_esp_psi4 env fs xyz).fs p = FS.lookupFile fs p) ∧
    FS.lookupFile (generate_esp_psi4 env fs xyz).fs
        (splitextRoot xyz ++ "_esp.cube") = some env.cubeContent ∧
    FS.lookupFile (generate_esp_psi4 env fs xyz).fs "ESP.cube" = none ∧
    (xyz ≠ "ESP.cube" →
      FS.lookupFile (generate_esp_psi4 env fs xyz).fs xyz = FS.lookupFile fs xyz) ∧
    (xyz = "ESP.cube" →
      FS.lookupFile (generate_esp_psi4 env fs xyz).fs xyz = none) ∧
    (generate_esp_psi4 env fs xyz).events =
      [.importPsi4, .openRead xyz, .energyCalc, .cubeprop,
       .existsCheck "ESP.cube",
       .rename "ESP.cube" (splitextRoot xyz ++ "_esp.cube")] := by
  rw [generate_run_cube env fs xyz l0 l1 rest n hav hfs hn hlen hcube]
  have hsrc : FS.lookupFile (FS.setFile fs "ESP.cube" env.cubeContent)
      "ESP.cube" = some env.cubeContent := by
    rw [lookupFile_setFile]; simp
  have hespne : ("ESP.cube" : String) ≠ splitextRoot xyz ++ "_esp.cube" :=
    fun h => cubeFile_ne_ESP xyz h.symm
  refine ⟨?_, ?_, ?_, ?_, ?_, rfl⟩
  · intro p hp1 hp2
    rw [lookupFile_rename _ _ _ _ _ hsrc, if_neg hp2, if_neg hp1,
      lookupFile_setFile, if_neg hp1]
  · rw [lookupFile_rename _ _ _ _ _ hsrc, if_pos rfl]
  · rw [lookupFile_rename _ _ _ _ _ hsrc, if_neg hespne, if_pos rfl]
  · intro hne
    have hxcube : xyz ≠ splitextRoot xyz ++ "_esp.cube" :=
      fun h => splitextRoot_esp_ne xyz h.symm
    rw [lookupFile_rename _ _ _ _ _ hsrc, if_neg hxcube, if_neg hne,
      lookupFile_setFile, if_neg hne]
  · intro heq
    subst heq
    rw [lookupFile_rename _ _ _ _ _ hsrc, if_neg hespne, if_pos rfl]

/-- C10 witness: the water run, including a stale file at the output path
(`water_esp.cube`) that the rename silently replaces and an unrelated file
that survives. -/
theorem c10_frame_rename_only_witness :
    (envOk.psi4Available = true ∧
      FS.lookupFile [("water.xyz", "3" :: "water" :: waterAtoms),
          ("water_esp.cube", ["stale"]), ("notes.txt", ["keep"])] "water.xyz"
        = some ("3" :: "water" :: waterAtoms) ∧
      pyInt "3" = some ((3 : Nat) : Int) ∧
      3 ≤ waterAtoms.length ∧
      envOk.engineProducesCube = true) ∧
    ((∀ p, p ≠ "ESP.cube" → p ≠ splitextRoot "water.xyz" ++ "_esp.cube" →
        FS.lookupFile (generate_esp_psi4 envOk
            [("water.xyz", "3" :: "water" :: waterAtoms),
             ("water_esp.cube", ["stale"]), ("notes.txt", ["keep"])]
            "water.xyz").fs p
          = FS.lookupFile [("water.xyz", "3" :: "water" :: waterAtoms),
              ("water_esp.cube", ["stale"]), ("notes.txt", ["keep"])] p) ∧
      FS.lookupFile (generate_esp_psi4 envOk
          [("water.xyz", "3" :: "water" :: waterAtoms),
           ("water_esp.cube", ["stale"]), ("notes.txt", ["keep"])]
          "water.xyz").fs (splitextRoot "water.xyz" ++ "_esp.cube")
        = some envOk.cubeContent ∧
      FS.lookupFile (generate_esp_psi4 envOk
          [("water.xyz", "3" :: "water" :: waterAtoms),
           ("water_esp.cube", ["stale"]), ("notes.txt", ["keep"])]
          "water.xyz").fs "ESP.cube" = none ∧
      (("water.xyz" : String) ≠ "ESP.cube" →
        FS.lookupFile (generate_esp_psi4 envOk
            [("water.xyz", "3" :: "water" :: waterAtoms),
             ("water_esp.cube", ["stale"]), ("notes.txt", ["keep"])]
            "water.xyz").fs "water.xyz"
          = FS.lookupFile [("water.xyz", "3" :: "water" :: waterAtoms),
              ("water_esp.cube", ["stale"]), ("notes.txt", ["keep"])] "water.xyz") ∧
      (("water.xyz" : String) = "ESP.cube" →
        FS.lookupFile (generate_esp_psi4 envOk
            [("water.xyz", "3" :: "water" :: waterAtoms),
             ("water_esp.cube", ["stale"]), ("notes.txt", ["keep"])]
            "water.xyz").fs "water.xyz" = none) ∧
      (generate_esp_psi4 envOk
          [("water.xyz", "3" :: "water" :: waterAtoms),
           ("water_esp.cube", ["stale"]), ("notes.txt", ["keep"])]
          "water.xyz").events =
        [.importPsi4, .openRead "water.xyz", .energyCalc, .cubeprop,
         .existsCheck "ESP.cube",
         .rename "ESP.cube" (splitextRoot "water.xyz" ++ "_esp.cube")]) :=
  ⟨⟨rfl, by decide, by decide, by decide, rfl⟩,
    c10_frame_rename_only envOk
      [("water.xyz", "3" :: "water" :: waterAtoms),
       ("water_esp.cube", ["stale"]), ("notes.txt", ["keep"])]
      "water.xyz" "3" "water" waterAtoms 3 rfl (by decide) (by decide)
      (by decide) rfl⟩
